import Mathlib

/-!
Verification of the neo4py bulk-loading layer: statement builder
(`_cypher.py`), identifier escaping (`_common.py`), session & bookmark
manager (`_base_connector.py`) and batch executor
(`_pandas_support.py` / `_numpy_support.py`).

Python strings are modelled as `String` (or `List Char` where per-character
reasoning is needed); Python dicts keyed by strings as association lists in
insertion order; exceptions as explicit result constructors.
-/

set_option autoImplicit false

/-- The space of Python `None`-able arguments. -/
abbrev Py (α : Type) := Option α

/-- `NodeCreationMode` enum from `_common.py`. -/
inductive NodeCreationMode
  | CREATE
  | MERGE_ON_ID_IGNORE_ON_MATCH
  | MERGE_ON_ID_SET_ATTR_ON_MATCH
  | MERGE_ON_ALL_ATTRIBUTES
deriving DecidableEq, Fintype

/-- `RelNodeCreationMode` enum from `_common.py`. -/
inductive RelNodeCreationMode
  | MERGE
  | MATCH
  | CREATE
deriving DecidableEq, Fintype

/-- `RelCreationMode` enum from `_common.py`. -/
inductive RelCreationMode
  | CREATE
  | MERGE
deriving DecidableEq, Fintype

/-- A Python enum member as a runtime value: Python `==` between members of
different `Enum` classes is `False`, which this wrapper type makes precise. -/
inductive PyEnumValue
  | node (m : NodeCreationMode)
  | relNode (m : RelNodeCreationMode)
  | rel (m : RelCreationMode)
deriving DecidableEq

/-- Python `x in (a, b, ...)` over enum members (`==`-based membership). -/
def pyIn (x : PyEnumValue) (l : List PyEnumValue) : Bool :=
  l.contains x

/-- The backquote character used by `escape` in `_common.py`. -/
def backquoteChar : Char := Char.ofNat 96

/-- Python `str.replace` for the single-character pattern of `escape`:
every backquote is doubled, all other characters are kept. -/
def doubleBq : List Char → List Char
  | [] => []
  | c :: cs =>
      if c = backquoteChar then c :: c :: doubleBq cs else c :: doubleBq cs

/-- `escape` from `_common.py` on character lists:
`"\x60" + str_.replace("\x60", "\x60\x60") + "\x60"`. -/
def escape (s : List Char) : List Char :=
  backquoteChar :: (doubleBq s ++ [backquoteChar])

/-- `escape` from `_common.py` at `String` level. -/
def escapeS (s : String) : String :=
  String.mk (escape s.data)

/-- The backslash character. -/
def backslashChar : Char := Char.ofNat 92

/-- The double-quote character. -/
def quoteChar : Char := Char.ofNat 34

/-- The two chained `str.replace` calls of `escaped_str` in `_common.py`:
first every backslash is doubled, then every double quote gets a backslash.
Since the first pass only produces backslashes and the second pass only
touches quotes, the composition acts per character of the input. -/
def escQuote : List Char → List Char
  | [] => []
  | c :: cs =>
      if c = backslashChar then backslashChar :: backslashChar :: escQuote cs
      else if c = quoteChar then backslashChar :: quoteChar :: escQuote cs
      else c :: escQuote cs

/-- `escaped_str` from `_common.py`. -/
def escaped_str (s : String) : String :=
  String.mk (quoteChar :: (escQuote s.data ++ [quoteChar]))

/-- Python `row_attr_map.get(key, key)` over an insertion-ordered dict. -/
def dictGetD (m : List (String × String)) (key : String) : String :=
  match m.find? (fun p => p.1 == key) with
  | some p => p.2
  | none => key

/-- Opening brace as a string. -/
def lbrace : String := "\x7b"

/-- Closing brace as a string. -/
def rbrace : String := "\x7d"

/-- `Cypher.row_as_dict` from `_cypher.py`.  `attribute_indexes = []` models
the falsy Python default `None` (and the falsy empty sequence), in which case
`enumerate(attributes)` supplies the indexes. -/
def row_as_dict (attributes : List String) (in_name out_name : String)
    (attribute_indexes : List Nat) : String :=
  let idx_attrs :=
    if attribute_indexes.isEmpty then
      (List.range attributes.length).zip attributes
    else
      attribute_indexes.zip attributes
  let pairs := idx_attrs.map (fun p =>
    escapeS p.2 ++ ": " ++ escapeS in_name ++ "[" ++ Nat.repr p.1 ++ "]")
  lbrace ++ String.intercalate ", " pairs ++ rbrace ++ " AS " ++ escapeS out_name

/-- `Cypher.inline_attributes` from `_cypher.py`. -/
def inline_attributes (attributes : List String)
    (row_attr_map : List (String × String)) (row_name : String) : String :=
  if attributes.isEmpty then ""
  else
    let pairs := attributes.map (fun key =>
      escapeS (dictGetD row_attr_map key) ++ ": " ++ escapeS row_name
        ++ "[" ++ escaped_str key ++ "]")
    lbrace ++ String.intercalate ", " pairs ++ rbrace

/-- `Cypher.node_pattern` from `_cypher.py`.  The conditional models
`if attributes and not attributes.startswith(" ")`. -/
def node_pattern (labels : List String) (attributes : String)
    (name : String) : String :=
  let ls := String.join (labels.map (fun l => ":" ++ escapeS l))
  let attrs :=
    match attributes.data with
    | [] => attributes
    | c :: _ => if c = ' ' then attributes else " " ++ attributes
  "(" ++ name ++ ls ++ attrs ++ ")"

/-- `Cypher.nodes_from_rows` from `_cypher.py`.  `id_ = none` models Python
`id_ = None`; the merge-on-id branches dereference `id_`, so they are
undefined (`none`, a runtime error in Python) without a primary key. -/
def nodes_from_rows (attributes : List String) (id_ : Py String)
    (labels : List String) (creation_mode : NodeCreationMode)
    (row_attr_map : List (String × String)) : Option String :=
  let with_statement := "WITH " ++ row_as_dict attributes "row" "row" [] ++ "\n"
  match creation_mode, id_ with
  | NodeCreationMode.CREATE, _ =>
      some ("UNWIND $rows AS row\n" ++ with_statement
        ++ ("CREATE " ++ node_pattern labels "" "n" ++ "\n")
        ++ "SET n = row")
  | NodeCreationMode.MERGE_ON_ID_IGNORE_ON_MATCH, some pk =>
      some ("UNWIND $rows AS row\n" ++ with_statement
        ++ ("MERGE "
            ++ node_pattern labels (inline_attributes [pk] row_attr_map "row") "n"
            ++ "\n")
        ++ ("ON CREATE\n  " ++ "SET n = row"))
  | NodeCreationMode.MERGE_ON_ID_SET_ATTR_ON_MATCH, some pk =>
      some ("UNWIND $rows AS row\n" ++ with_statement
        ++ ("MERGE "
            ++ node_pattern labels (inline_attributes [pk] row_attr_map "row") "n"
            ++ "\n")
        ++ "SET n = row")
  | NodeCreationMode.MERGE_ON_ALL_ATTRIBUTES, _ =>
      some ("UNWIND $rows AS row\n" ++ with_statement
        ++ ("MERGE "
            ++ node_pattern labels (inline_attributes attributes row_attr_map "row") "n"
            ++ "\n")
        ++ "")
  | _, none => none

/-- The verb column of the branching table in spec section 4.2. -/
def spec_verb : NodeCreationMode → String
  | NodeCreationMode.CREATE => "CREATE"
  | _ => "MERGE"

/-- The match-clause column of the branching table in spec section 4.2:
no clause for `Create`, the primary-key attribute only for the merge-on-id
modes, every declared attribute for `MergeOnAllAttributes`. -/
def spec_match_clause (attrs : List String) (pk : String)
    (m : List (String × String)) : NodeCreationMode → String
  | NodeCreationMode.CREATE => ""
  | NodeCreationMode.MERGE_ON_ID_IGNORE_ON_MATCH => inline_attributes [pk] m "row"
  | NodeCreationMode.MERGE_ON_ID_SET_ATTR_ON_MATCH => inline_attributes [pk] m "row"
  | NodeCreationMode.MERGE_ON_ALL_ATTRIBUTES => inline_attributes attrs m "row"

/-- The SET-clause column of the branching table in spec section 4.2. -/
def spec_set_clause : NodeCreationMode → String
  | NodeCreationMode.CREATE => "SET n = row"
  | NodeCreationMode.MERGE_ON_ID_IGNORE_ON_MATCH => "ON CREATE\n  SET n = row"
  | NodeCreationMode.MERGE_ON_ID_SET_ATTR_ON_MATCH => "SET n = row"
  | NodeCreationMode.MERGE_ON_ALL_ATTRIBUTES => ""

/-- The node-creation statement as the branching table of spec section 4.2
describes it: the UNWIND/WITH prologue, then the verb applied to the node
pattern with the mode's match clause, then the mode's SET clause. -/
def spec_node_statement (attrs : List String) (pk : String)
    (labels : List String) (m : List (String × String))
    (mode : NodeCreationMode) : String :=
  "UNWIND $rows AS row\n"
  ++ ("WITH " ++ row_as_dict attrs "row" "row" [] ++ "\n")
  ++ (spec_verb mode ++ " "
      ++ node_pattern labels (spec_match_clause attrs pk m mode) "n" ++ "\n")
  ++ spec_set_clause mode

/-- Database names handed to `neo4j.GraphDatabase.driver().session`. -/
abbrev Db := String

/-- Opaque bookmark tokens returned by `session.last_bookmark()`. -/
abbrev Token := String

/-- Python exceptions relevant to the connector: the `RuntimeError` usage
errors of `_base_connector.py` and opaque errors raised by the driver or a
transaction function. -/
inductive PyErr
  | runtimeError (msg : String)
  | external (code : Nat)
deriving DecidableEq

/-- Lookup in a `defaultdict(list)` keyed by database name: the first entry
with the key, or the empty list. -/
def alGet (l : List (Db × List Token)) (k : Db) : List Token :=
  match l.find? (fun p => p.1 == k) with
  | some p => p.2
  | none => []

/-- `d[k] = v` on an insertion-ordered dict. -/
def alSet (l : List (Db × List Token)) (k : Db) (v : List Token) :
    List (Db × List Token) :=
  match l with
  | [] => [(k, v)]
  | p :: rest => if p.1 == k then (k, v) :: rest else p :: alSet rest k v

/-- `del d[k]` (with the `except KeyError: pass` of
`_get_sequential_session`, so deleting a missing key is a no-op). -/
def alDel (l : List (Db × List Token)) (k : Db) : List (Db × List Token) :=
  l.filter (fun p => !(p.1 == k))

/-- `d[k].append(t)` on a `defaultdict(list)`: a missing key is inserted
with the one-element list. -/
def alAppend (l : List (Db × List Token)) (k : Db) (t : Token) :
    List (Db × List Token) :=
  match l with
  | [] => [(k, [t])]
  | p :: rest =>
      if p.1 == k then (p.1, p.2 ++ [t]) :: rest else p :: alAppend rest k t

/-- The mutable state of `Neo4jConnectorBase`: the per-database bookmark
dict, the per-database pending parallel bookmark dict, the parallel-mode
flag, and the submitted futures.  A future is recorded by the outcome the
awaiting `future.result()` call will observe: `none` for a successful job,
`some e` for a job that raised `e`. -/
structure ConnectorState where
  bookmarks : List (Db × List Token)
  parallel_bookmarks : List (Db × List Token)
  parallel_mode : Bool
  futures : List (Option PyErr)
deriving DecidableEq

/-- The state of a freshly constructed connector. -/
def initConnState : ConnectorState :=
  { bookmarks := [], parallel_bookmarks := [], parallel_mode := false,
    futures := [] }

/-- What the external database does with one session: the transaction either
succeeds and the closing `session.last_bookmark()` is `closeToken`, or the
transaction function raises. -/
inductive QueryOutcome
  | ok (closeToken : Token)
  | fail (e : PyErr)
deriving DecidableEq

/-- Result of a sequential `read_query`/`write_query` through
`_get_sequential_session`: the usage error raised before any session is
opened, a transaction failure after a session seeded with `seeded` was
opened, or a clean completion.  `after` is the connector state when the
call returns or the exception escapes. -/
inductive SeqQueryResult
  | usageError (after : ConnectorState)
  | failed (seeded : List Token) (e : PyErr) (after : ConnectorState)
  | succeeded (seeded : List Token) (after : ConnectorState)
deriving DecidableEq

/-- `read_query`/`write_query` via `_get_sequential_session` in
`_base_connector.py`: raise `RuntimeError` if `_parallel_mode`; otherwise
open a session seeded with `_bookmarks[db]`; on a transaction failure the
code after `yield` is skipped, so the state is untouched; on clean close
set `_bookmarks[db]` to the one-element list of the session's last bookmark
and delete any pending `_parallel_bookmarks[db]`. -/
def seq_query (s : ConnectorState) (db : Db) (out : QueryOutcome) :
    SeqQueryResult :=
  if s.parallel_mode then
    SeqQueryResult.usageError s
  else
    let seeded := alGet s.bookmarks db
    match out with
    | QueryOutcome.fail e => SeqQueryResult.failed seeded e s
    | QueryOutcome.ok tok =>
        SeqQueryResult.succeeded seeded
          { s with bookmarks := alSet s.bookmarks db [tok],
                   parallel_bookmarks := alDel s.parallel_bookmarks db }

/-- The state reached after a sequential query call, whatever its outcome. -/
def stateAfterSeq : SeqQueryResult → ConnectorState
  | SeqQueryResult.usageError s => s
  | SeqQueryResult.failed _ _ s => s
  | SeqQueryResult.succeeded _ s => s

/-- The bookmark list a sequential query call seeded its session with,
if a session was opened at all. -/
def seqSeedOf (s : ConnectorState) (db : Db) (out : QueryOutcome) :
    Option (List Token) :=
  match seq_query s db out with
  | SeqQueryResult.usageError _ => none
  | SeqQueryResult.failed seeded _ _ => some seeded
  | SeqQueryResult.succeeded seeded _ => some seeded

/-- One step of a chain of clean sequential writes against `db`. -/
def stepCleanWrite (db : Db) (st : ConnectorState) (t : Token) :
    ConnectorState :=
  stateAfterSeq (seq_query st db (QueryOutcome.ok t))

/-- A chain of clean sequential writes against `db`, closing with the tokens
`ts` in order. -/
def runCleanWrites (s : ConnectorState) (db : Db) (ts : List Token) :
    ConnectorState :=
  ts.foldl (stepCleanWrite db) s

/-- Result of running the job closure submitted by
`parallel_read_query`/`parallel_write_query`, through
`_get_parallel_session`: a usage error raised (inside the worker) before
any session is opened when `_parallel_mode` is unset, a transaction
failure, or a clean close that appends the session's last bookmark to
`_parallel_bookmarks[db]` under the lock. -/
inductive ParJobResult
  | usageError (after : ConnectorState)
  | failed (seeded : List Token) (e : PyErr) (after : ConnectorState)
  | succeeded (seeded : List Token) (after : ConnectorState)
deriving DecidableEq

/-- The body of the `job` closure of `parallel_write_query` in
`_base_connector.py`, evaluated against the connector state `st` current
when the worker runs it. -/
def parallel_job_run (st : ConnectorState) (db : Db) (out : QueryOutcome) :
    ParJobResult :=
  if st.parallel_mode = false then
    ParJobResult.usageError st
  else
    let seeded := alGet st.bookmarks db
    match out with
    | QueryOutcome.fail e => ParJobResult.failed seeded e st
    | QueryOutcome.ok tok =>
        ParJobResult.succeeded seeded
          { st with
              parallel_bookmarks := alAppend st.parallel_bookmarks db tok }

/-- The synchronous part of `parallel_write_query` (lines 152-160 of
`_base_connector.py`): build the job closure, submit it to the thread pool,
append the future, return the future.  No condition is checked and nothing
is raised on this path, so the codomain's error case is never produced;
`jobOutcome` is the outcome the submitted job will eventually store in the
returned future. -/
def parallel_write_query_submit (s : ConnectorState)
    (jobOutcome : Option PyErr) : Except PyErr ConnectorState :=
  Except.ok { s with futures := s.futures ++ [jobOutcome] }

/-- The `for future in self._futures: future.result()` loop of
`_await_futures`, returning how many futures had `result()` called on them
and the first exception it re-raised, if any.  A raising `result()` call
aborts the loop, so the futures after it are never awaited. -/
def await_futures_trace : List (Option PyErr) → Nat × Option PyErr
  | [] => (0, none)
  | none :: rest =>
      let r := await_futures_trace rest
      (r.1 + 1, r.2)
  | some e :: _ => (1, some e)

/-- `_consolidate_parallel_bookmarks` from `_base_connector.py`: for each
database in the pending dict, in insertion order, a non-empty pending list
replaces the current bookmark list; then the pending dict is cleared. -/
def consolidate_parallel_bookmarks (s : ConnectorState) : ConnectorState :=
  { s with
      bookmarks := s.parallel_bookmarks.foldl
        (fun bm p => if p.2.isEmpty then bm else alSet bm p.1 p.2) s.bookmarks,
      parallel_bookmarks := [] }

/-- What exiting the `parallelism` scope produced: how many futures were
awaited, the connector state afterwards, and the exception (if any) that
propagates to the caller. -/
structure ScopeExit where
  awaited : Nat
  after : ConnectorState
  raised : Option PyErr
deriving DecidableEq

/-- The `finally` block of `parallelism` in `_base_connector.py`:
`_await_futures()`, then `_parallel_mode = False`, then
`_consolidate_parallel_bookmarks()`.  If `_await_futures` re-raises a
future's exception, the remaining two statements (and the clearing of
`_futures`, which follows the loop inside `_await_futures`) never run, and
that exception replaces any in-flight exception `bodyErr` from the scope
body; otherwise the body's exception, if any, propagates after the cleanup. -/
def parallelism_exit (s : ConnectorState) (bodyErr : Option PyErr) :
    ScopeExit :=
  let t := await_futures_trace s.futures
  match t.2 with
  | some e => { awaited := t.1, after := s, raised := some e }
  | none =>
      { awaited := t.1,
        after := consolidate_parallel_bookmarks
          { s with futures := [], parallel_mode := false },
        raised := bodyErr }

/-- Python `range(start, stop, step)` for a positive step. -/
def pyRangeFrom (start stop step : Nat) : List Nat :=
  if _h : 0 < step ∧ start < stop then
    start :: pyRangeFrom (start + step) stop step
  else
    []
termination_by stop - start
decreasing_by omega

/-- The batches issued by the sequential branch of `_batch_query_df` in
`_pandas_support.py`: for each `offset in range(0, len(df), batch_size)`
the row slice `df[offset:offset + batch_size]`, in loop order.  Each slice
is the payload of one `write_query` call, and the next call is only made
after the previous one returned. -/
def batch_query_df_batches {α : Type} (df : List α) (batch_size : Nat) :
    List (List α) :=
  (pyRangeFrom 0 df.length batch_size).map
    (fun offset => (df.drop offset).take batch_size)

/-- The `can_run_parallel` condition of `save_nodes_df` in
`_pandas_support.py` (lines 225-229), applied to the post-normalization
`creation_mode` and to whether a caller `cypher` argument was supplied. -/
def save_nodes_df_can_run_parallel (creation_mode : NodeCreationMode)
    (hasCypher : Bool) : Bool :=
  pyIn (PyEnumValue.node creation_mode)
    [PyEnumValue.node NodeCreationMode.CREATE,
     PyEnumValue.node NodeCreationMode.MERGE_ON_ID_IGNORE_ON_MATCH]
  && !hasCypher

/-- The effective creation mode of `save_nodes_df`: `None` normalizes to
`CREATE`, and `if creation_mode and cypher is not None` — every enum member
is truthy, so the test is just `cypher is not None` — warns and overrides
the mode to `CREATE`. -/
def save_nodes_df_effective_mode (suppliedMode : Py NodeCreationMode)
    (hasCypher : Bool) : NodeCreationMode :=
  let m := suppliedMode.getD NodeCreationMode.CREATE
  if hasCypher then NodeCreationMode.CREATE else m

/-- How the batch loop of `save_nodes_np` is entered: query generation
raised `TypeError`, or the batches run on the parallel or the sequential
path. -/
inductive NpDispatch
  | typeErrorMissingArg
  | parallel
  | sequential
deriving DecidableEq

/-- Query generation and dispatch of `save_nodes_np` in `_numpy_support.py`
(lines 200-224).  With `cypher=None`, line 202 calls
`Cypher.nodes_from_rows(attributes, id_, [label], creation_mode)` — four
arguments, while `nodes_from_rows` requires five (`row_attr_map` has no
default) — so the call raises `TypeError` before the dispatch test and no
batch runs at all.  With a caller-supplied statement, the dispatch at
lines 208-209 selects the parallel path iff the creation mode is `CREATE`
or `MERGE_ON_ID_IGNORE_ON_MATCH` (no condition on the statement). -/
def save_nodes_np_dispatch (suppliedMode : Py NodeCreationMode)
    (hasCypher : Bool) : NpDispatch :=
  if !hasCypher then
    NpDispatch.typeErrorMissingArg
  else
    let m := suppliedMode.getD NodeCreationMode.CREATE
    if pyIn (PyEnumValue.node m)
        [PyEnumValue.node NodeCreationMode.CREATE,
         PyEnumValue.node NodeCreationMode.MERGE_ON_ID_IGNORE_ON_MATCH] then
      NpDispatch.parallel
    else
      NpDispatch.sequential

/-- The `can_run_parallel` condition of `save_rel_df` in
`_pandas_support.py` (lines 415-423), exactly as written: the endpoint
membership tuples contain `RelNodeCreationMode.MATCH` and
`RelCreationMode.CREATE` — the latter a member of the *edge* enum, which no
`RelNodeCreationMode` value ever equals under Python `==`. -/
def save_rel_df_can_run_parallel (creation_mode : RelCreationMode)
    (src_creation_mode dst_creation_mode : RelNodeCreationMode) : Bool :=
  (PyEnumValue.rel creation_mode == PyEnumValue.rel RelCreationMode.CREATE)
  && pyIn (PyEnumValue.relNode src_creation_mode)
       [PyEnumValue.relNode RelNodeCreationMode.MATCH,
        PyEnumValue.rel RelCreationMode.CREATE]
  && pyIn (PyEnumValue.relNode dst_creation_mode)
       [PyEnumValue.relNode RelNodeCreationMode.MATCH,
        PyEnumValue.rel RelCreationMode.CREATE]

/-- The edge parallel-eligibility rule as the spec states it: edge mode
`Create` and both endpoint modes in the set containing `Match` and
`Create`. -/
def spec_rel_parallel_eligible (creation_mode : RelCreationMode)
    (src_creation_mode dst_creation_mode : RelNodeCreationMode) : Bool :=
  decide (creation_mode = RelCreationMode.CREATE)
  && (decide (src_creation_mode = RelNodeCreationMode.MATCH)
      || decide (src_creation_mode = RelNodeCreationMode.CREATE))
  && (decide (dst_creation_mode = RelNodeCreationMode.MATCH)
      || decide (dst_creation_mode = RelNodeCreationMode.CREATE))

/-- How a bulk node-create call gets past its argument checks: it raises
the missing-primary-key `ValueError`, or proceeds (having possibly warned)
with an effective creation mode. -/
inductive SaveNodesOutcome
  | valueErrorMissingId
  | proceeds (warned : Bool) (effectiveMode : NodeCreationMode)
deriving DecidableEq

/-- The argument handling of `save_nodes_df` (`_pandas_support.py`,
lines 183-204): normalize the mode, warn and override it to `CREATE` when a
`cypher` argument was supplied, then raise `ValueError` if the (effective)
mode is merge-on-id and `id_` is `None`. -/
def save_nodes_df_outcome (suppliedMode : Py NodeCreationMode)
    (id_ : Py String) (hasCypher : Bool) : SaveNodesOutcome :=
  let m := save_nodes_df_effective_mode suppliedMode hasCypher
  if (m = NodeCreationMode.MERGE_ON_ID_IGNORE_ON_MATCH
      ∨ m = NodeCreationMode.MERGE_ON_ID_SET_ATTR_ON_MATCH)
     ∧ id_ = none then
    SaveNodesOutcome.valueErrorMissingId
  else
    SaveNodesOutcome.proceeds hasCypher m

/-- The argument handling of `save_nodes_np` (`_numpy_support.py`,
lines 163-198): normalize the mode, raise `ValueError` if the mode is
merge-on-id and `id_` is `None` (this check runs *before* the warning),
then `if cypher and (creation_mode or attributes)` — true whenever `cypher`
is truthy, since the mode is — warn, but never override the mode. -/
def save_nodes_np_outcome (suppliedMode : Py NodeCreationMode)
    (id_ : Py String) (hasCypher : Bool) : SaveNodesOutcome :=
  let m := suppliedMode.getD NodeCreationMode.CREATE
  if (m = NodeCreationMode.MERGE_ON_ID_IGNORE_ON_MATCH
      ∨ m = NodeCreationMode.MERGE_ON_ID_SET_ATTR_ON_MATCH)
     ∧ id_ = none then
    SaveNodesOutcome.valueErrorMissingId
  else
    SaveNodesOutcome.proceeds hasCypher m

/-- A connector state inside an active `parallelism` scope (with nothing
submitted yet). -/
def scopeState : ConnectorState :=
  { initConnState with parallel_mode := true }

theorem alGet_cons (p : Db × List Token) (l : List (Db × List Token))
    (k : Db) : alGet (p :: l) k = if p.1 == k then p.2 else alGet l k := by
  simp only [alGet, List.find?_cons]
  cases h : p.1 == k <;> simp [h]

theorem alGet_alSet_self (l : List (Db × List Token)) (k : Db)
    (v : List Token) : alGet (alSet l k v) k = v := by
  induction l with
  | nil => simp [alSet, alGet_cons]
  | cons p rest ih =>
      simp only [alSet]
      cases h : p.1 == k <;> simp [alGet_cons, h, ih]

theorem alGet_alSet_ne (l : List (Db × List Token)) (k k' : Db)
    (v : List Token) (hk : k' ≠ k) : alGet (alSet l k v) k' = alGet l k' := by
  induction l with
  | nil =>
      show alGet [(k, v)] k' = alGet [] k'
      rw [alGet_cons]
      simp [Ne.symm hk]
  | cons p rest ih =>
      simp only [alSet]
      cases h : p.1 == k
      · simp [alGet_cons, h, ih]
      · have : p.1 = k := by simpa using h
        simp [alGet_cons, this, hk, Ne.symm hk]

theorem alGet_alDel_self (l : List (Db × List Token)) (k : Db) :
    alGet (alDel l k) k = [] := by
  induction l with
  | nil => rfl
  | cons p rest ih =>
      simp only [alDel, List.filter_cons]
      cases h : p.1 == k <;> simp_all [alGet_cons, alDel]

theorem alGet_eq_nil_of_not_mem (l : List (Db × List Token)) (k : Db)
    (h : ∀ p ∈ l, p.1 ≠ k) : alGet l k = [] := by
  induction l with
  | nil => rfl
  | cons p rest ih =>
      have h1 : p.1 ≠ k := h p (List.mem_cons_self p rest)
      rw [alGet_cons]
      simp only [beq_iff_eq, h1, if_false]
      exact ih (fun q hq => h q (List.mem_cons_of_mem p hq))

theorem stepCleanWrite_parallel_mode (db : Db) (st : ConnectorState)
    (t : Token) : (stepCleanWrite db st t).parallel_mode = st.parallel_mode := by
  unfold stepCleanWrite seq_query stateAfterSeq
  by_cases h : st.parallel_mode <;> simp [h]

theorem runCleanWrites_parallel_mode (s : ConnectorState) (db : Db)
    (ts : List Token) :
    (runCleanWrites s db ts).parallel_mode = s.parallel_mode := by
  induction ts generalizing s with
  | nil => rfl
  | cons t ts ih =>
      simp only [runCleanWrites, List.foldl_cons]
      rw [show List.foldl (stepCleanWrite db) (stepCleanWrite db s t) ts =
            runCleanWrites (stepCleanWrite db s t) db ts from rfl, ih,
          stepCleanWrite_parallel_mode]

theorem stepCleanWrite_eq (db : Db) (st : ConnectorState) (t : Token)
    (hm : st.parallel_mode = false) :
    stepCleanWrite db st t =
      { st with bookmarks := alSet st.bookmarks db [t],
                parallel_bookmarks := alDel st.parallel_bookmarks db } := by
  unfold stepCleanWrite seq_query stateAfterSeq
  simp [hm]

/-- C10: if the transaction of a sequential `read_query`/`write_query`
raises, the connector state is unchanged by the call — the bookmark entry
for the target database and the pending parallel lists keep their pre-call
values — and the new bookmark is recorded only on clean close. -/
theorem seq_query_failure_leaves_state (s : ConnectorState) (db : Db)
    (e : PyErr) (tok : Token) (hm : s.parallel_mode = false) :
    seq_query s db (QueryOutcome.fail e) =
      SeqQueryResult.failed (alGet s.bookmarks db) e s
    ∧ seq_query s db (QueryOutcome.ok tok) =
        SeqQueryResult.succeeded (alGet s.bookmarks db)
          { s with bookmarks := alSet s.bookmarks db [tok],
                   parallel_bookmarks := alDel s.parallel_bookmarks db } := by
  constructor <;> simp [seq_query, hm]

theorem seq_query_failure_leaves_state_witness :
    seq_query initConnState "movies" (QueryOutcome.fail (PyErr.external 3)) =
      SeqQueryResult.failed (alGet initConnState.bookmarks "movies")
        (PyErr.external 3) initConnState :=
  (seq_query_failure_leaves_state initConnState "movies" (PyErr.external 3)
    "bm" rfl).1

/-- C5 counterexample: with no parallelism scope active,
`parallel_write_query` does not fail synchronously — its synchronous part
returns a future normally (appending it to `_futures`); the usage error is
only produced inside the submitted job when the worker runs it. -/
theorem parallel_query_not_synchronous :
    parallel_write_query_submit initConnState
        (some (PyErr.runtimeError "usage")) =
      Except.ok { initConnState with
                    futures := [some (PyErr.runtimeError "usage")] }
    ∧ parallel_job_run initConnState "neo4j" (QueryOutcome.ok "bm1") =
        ParJobResult.usageError initConnState :=
  ⟨rfl, rfl⟩

/-- C5 amended: a sequential operation during an active parallelism scope
fails immediately and synchronously with a usage error, before any session
is opened and independently of the external database; a parallel operation
outside a scope returns a future without raising — the usage error is
raised inside the submitted job (before any session is opened there) and
surfaces only through the future. -/
theorem mode_mismatch_usage_errors (s : ConnectorState) (db : Db)
    (out : QueryOutcome) (o : Option PyErr) :
    (s.parallel_mode = true → seq_query s db out = SeqQueryResult.usageError s)
    ∧ parallel_write_query_submit s o =
        Except.ok { s with futures := s.futures ++ [o] }
    ∧ (s.parallel_mode = false →
        parallel_job_run s db out = ParJobResult.usageError s) := by
  refine ⟨fun h => ?_, rfl, fun h => ?_⟩ <;> simp [seq_query, parallel_job_run, h]

theorem mode_mismatch_usage_errors_witness :
    seq_query scopeState "db" (QueryOutcome.ok "t") =
      SeqQueryResult.usageError scopeState
    ∧ parallel_job_run initConnState "db" (QueryOutcome.ok "t") =
        ParJobResult.usageError initConnState :=
  ⟨(mode_mismatch_usage_errors scopeState "db" (QueryOutcome.ok "t") none).1 rfl,
   (mode_mismatch_usage_errors initConnState "db" (QueryOutcome.ok "t") none).2.2 rfl⟩

/-- C3: the `can_run_parallel` condition of `save_rel_df` diverges from the
spec rule at endpoint mode `Create`: the code's membership tuples name
`RelCreationMode.CREATE` (the edge enum) instead of
`RelNodeCreationMode.CREATE`, which no endpoint mode ever equals, so a
build with a `Create` endpoint is routed to the sequential path even though
the spec (and the claim) make it parallel-eligible.  The claim's concrete
scenario (Match/Match/Create eligible, Merge endpoint not) does hold. -/
theorem save_rel_df_parallel_divergence :
    save_rel_df_can_run_parallel RelCreationMode.CREATE
      RelNodeCreationMode.CREATE RelNodeCreationMode.MATCH = false
    ∧ spec_rel_parallel_eligible RelCreationMode.CREATE
        RelNodeCreationMode.CREATE RelNodeCreationMode.MATCH = true
    ∧ save_rel_df_can_run_parallel RelCreationMode.CREATE
        RelNodeCreationMode.MATCH RelNodeCreationMode.MATCH = true
    ∧ save_rel_df_can_run_parallel RelCreationMode.CREATE
        RelNodeCreationMode.MERGE RelNodeCreationMode.MATCH = false := by
  decide

/-- C6 counterexample: a `save_nodes_df` call with creation mode `Create`
and a caller-supplied cypher statement keeps effective mode `Create` yet is
dispatched sequentially; and a `save_nodes_np` call with mode `Create` and
no custom statement never selects the parallel path either — query
generation raises `TypeError` before the dispatch.  So "parallel exactly
when the mode is Create or MergeIgnoreOnMatch" fails on both paths. -/
theorem save_nodes_mode_iff_counterexample :
    save_nodes_df_effective_mode (some NodeCreationMode.CREATE) true =
      NodeCreationMode.CREATE
    ∧ save_nodes_df_can_run_parallel
        (save_nodes_df_effective_mode (some NodeCreationMode.CREATE) true)
        true = false
    ∧ save_nodes_np_dispatch (some NodeCreationMode.CREATE) false =
        NpDispatch.typeErrorMissingArg := by
  decide

/-- C6 amended: on the table path (`save_nodes_df`) the parallel path is
selected exactly when the effective creation mode is `Create` or
`MergeIgnoreOnMatch` *and* no caller cypher statement was supplied.  On the
array path (`save_nodes_np`) a call without a custom statement never
reaches the dispatch: query generation calls `nodes_from_rows` without its
required `row_attr_map` argument and raises `TypeError`, so no batch runs
at all; with a custom statement the array path goes parallel exactly when
the supplied mode is `Create` or `MergeIgnoreOnMatch`.
`MergeUpdateOnMatch` and `MergeOnAllAttributes` never select the parallel
path on either path. -/
theorem save_nodes_dispatch_eligibility :
    ∀ (m : Py NodeCreationMode) (hc : Bool),
      (save_nodes_df_can_run_parallel
          (save_nodes_df_effective_mode m hc) hc = true ↔
        ((save_nodes_df_effective_mode m hc = NodeCreationMode.CREATE
          ∨ save_nodes_df_effective_mode m hc =
              NodeCreationMode.MERGE_ON_ID_IGNORE_ON_MATCH)
         ∧ hc = false))
      ∧ save_nodes_np_dispatch m false = NpDispatch.typeErrorMissingArg
      ∧ (save_nodes_np_dispatch m true = NpDispatch.parallel ↔
          (m.getD NodeCreationMode.CREATE = NodeCreationMode.CREATE
           ∨ m.getD NodeCreationMode.CREATE =
               NodeCreationMode.MERGE_ON_ID_IGNORE_ON_MATCH))
      ∧ ((save_nodes_df_effective_mode m hc =
            NodeCreationMode.MERGE_ON_ID_SET_ATTR_ON_MATCH
          ∨ save_nodes_df_effective_mode m hc =
              NodeCreationMode.MERGE_ON_ALL_ATTRIBUTES)
         → save_nodes_df_can_run_parallel
             (save_nodes_df_effective_mode m hc) hc = false)
      ∧ ((m.getD NodeCreationMode.CREATE =
            NodeCreationMode.MERGE_ON_ID_SET_ATTR_ON_MATCH
          ∨ m.getD NodeCreationMode.CREATE =
              NodeCreationMode.MERGE_ON_ALL_ATTRIBUTES)
         → save_nodes_np_dispatch m true = NpDispatch.sequential) := by
  decide

theorem save_nodes_dispatch_eligibility_witness :
    save_nodes_np_dispatch (some NodeCreationMode.MERGE_ON_ALL_ATTRIBUTES)
      true = NpDispatch.sequential :=
  (save_nodes_dispatch_eligibility
    (some NodeCreationMode.MERGE_ON_ALL_ATTRIBUTES) true).2.2.2.2 (Or.inr rfl)

/-- C9 counterexample: on the array path, a custom statement plus an
explicit creation mode is *not* overridden to `Create`: with
`MERGE_ON_ID_IGNORE_ON_MATCH` and no `id_` the call fails hard with
`ValueError`, and with an `id_` it proceeds with the supplied merge mode
unchanged. -/
theorem save_nodes_np_no_override :
    save_nodes_np_outcome (some NodeCreationMode.MERGE_ON_ID_IGNORE_ON_MATCH)
      none true = SaveNodesOutcome.valueErrorMissingId
    ∧ save_nodes_np_outcome
        (some NodeCreationMode.MERGE_ON_ID_IGNORE_ON_MATCH) (some "id") true =
        SaveNodesOutcome.proceeds true
          NodeCreationMode.MERGE_ON_ID_IGNORE_ON_MATCH := by
  decide

/-- C9 amended: on the table path a caller-supplied custom statement makes
the call warn and proceed with the creation mode overridden to `Create`
(never the missing-id `ValueError`); on the array path the call warns but
keeps the supplied mode, and still fails hard with `ValueError` when that
mode is merge-on-id and no primary key is given. -/
theorem save_nodes_custom_cypher_behavior :
    ∀ (m : Py NodeCreationMode) (id_ : Py String),
      save_nodes_df_outcome m id_ true =
        SaveNodesOutcome.proceeds true NodeCreationMode.CREATE
      ∧ (∀ w em, save_nodes_np_outcome m id_ true =
            SaveNodesOutcome.proceeds w em →
          w = true ∧ em = m.getD NodeCreationMode.CREATE)
      ∧ (save_nodes_np_outcome m id_ true =
            SaveNodesOutcome.valueErrorMissingId ↔
          ((m.getD NodeCreationMode.CREATE =
              NodeCreationMode.MERGE_ON_ID_IGNORE_ON_MATCH
            ∨ m.getD NodeCreationMode.CREATE =
                NodeCreationMode.MERGE_ON_ID_SET_ATTR_ON_MATCH)
           ∧ id_ = none)) := by
  intro m id_
  refine ⟨?_, ?_, ?_⟩
  · simp [save_nodes_df_outcome, save_nodes_df_effective_mode]
  · intro w em h
    simp only [save_nodes_np_outcome] at h
    split at h
    · exact absurd h (by simp)
    · rw [SaveNodesOutcome.proceeds.injEq] at h
      exact ⟨h.1.symm, h.2.symm⟩
  · simp only [save_nodes_np_outcome]
    split
    · simp_all
    · simp_all

theorem save_nodes_custom_cypher_behavior_witness :
    true = true
    ∧ NodeCreationMode.CREATE =
        (some NodeCreationMode.CREATE).getD NodeCreationMode.CREATE :=
  (save_nodes_custom_cypher_behavior (some NodeCreationMode.CREATE) none).2.1
    true NodeCreationMode.CREATE (by decide)

/-- C1: a sequential session against a database is seeded with the
connector's current bookmark list for it; a clean close replaces that list
with the one-element list holding the session's closing token and discards
any pending parallel tokens for that database; hence after sequential
writes closing with tokens `init ++ [tN]`, the next session against the
database is seeded with `[tN]` — the token from the last close, never an
older one. -/
theorem seq_bookmark_invariant (s : ConnectorState) (db : Db)
    (init : List Token) (tN t tok : Token) (hm : s.parallel_mode = false) :
    seq_query s db (QueryOutcome.ok tok) =
      SeqQueryResult.succeeded (alGet s.bookmarks db)
        { s with bookmarks := alSet s.bookmarks db [tok],
                 parallel_bookmarks := alDel s.parallel_bookmarks db }
    ∧ alGet (runCleanWrites s db (init ++ [tN])).bookmarks db = [tN]
    ∧ alGet (runCleanWrites s db (init ++ [tN])).parallel_bookmarks db = []
    ∧ seqSeedOf (runCleanWrites s db (init ++ [tN])) db (QueryOutcome.ok t) =
        some [tN] := by
  have hmode : (runCleanWrites s db init).parallel_mode = false := by
    rw [runCleanWrites_parallel_mode]; exact hm
  have hlast : runCleanWrites s db (init ++ [tN]) =
      stepCleanWrite db (runCleanWrites s db init) tN := by
    simp [runCleanWrites, List.foldl_append]
  have hstep := stepCleanWrite_eq db (runCleanWrites s db init) tN hmode
  have hget : alGet (runCleanWrites s db (init ++ [tN])).bookmarks db = [tN] := by
    rw [hlast, hstep]
    exact alGet_alSet_self _ _ _
  have hm2 : (runCleanWrites s db (init ++ [tN])).parallel_mode = false := by
    rw [runCleanWrites_parallel_mode]; exact hm
  refine ⟨by simp [seq_query, hm], hget, ?_, ?_⟩
  · rw [hlast, hstep]
    exact alGet_alDel_self _ _
  · simp [seqSeedOf, seq_query, hm2, hget]

theorem seq_bookmark_invariant_witness :
    seqSeedOf (runCleanWrites initConnState "db" (["t1"] ++ ["t2"])) "db"
      (QueryOutcome.ok "t3") = some ["t2"] :=
  (seq_bookmark_invariant initConnState "db" ["t1"] "t2" "t3" "t0" rfl).2.2.2

theorem await_futures_trace_all_ok (l : List (Option PyErr))
    (h : ∀ f ∈ l, f = none) : await_futures_trace l = (l.length, none) := by
  induction l with
  | nil => rfl
  | cons f rest ih =>
      have hf : f = none := h f (List.mem_cons_self f rest)
      subst hf
      simp [await_futures_trace,
        ih (fun g hg => h g (List.mem_cons_of_mem _ hg))]

theorem await_futures_trace_first_error (pre : List (Option PyErr))
    (e : PyErr) (post : List (Option PyErr)) (h : ∀ f ∈ pre, f = none) :
    await_futures_trace (pre ++ some e :: post) = (pre.length + 1, some e) := by
  induction pre with
  | nil => rfl
  | cons f rest ih =>
      have hf : f = none := h f (List.mem_cons_self f rest)
      subst hf
      simp [await_futures_trace,
        ih (fun g hg => h g (List.mem_cons_of_mem _ hg))]

theorem alGet_consolidate_foldl (l : List (Db × List Token))
    (bm : List (Db × List Token)) (db : Db)
    (hnd : (l.map Prod.fst).Nodup) :
    alGet (l.foldl
        (fun acc p => if p.2.isEmpty then acc else alSet acc p.1 p.2) bm) db =
      if alGet l db = [] then alGet bm db else alGet l db := by
  induction l generalizing bm with
  | nil => simp [alGet]
  | cons p rest ih =>
      simp only [List.map_cons, List.nodup_cons] at hnd
      obtain ⟨hp, hrest⟩ := hnd
      simp only [List.foldl_cons]
      rw [ih _ hrest, alGet_cons]
      by_cases hdb : p.1 = db
      · subst hdb
        have hrest0 : alGet rest p.1 = [] := by
          apply alGet_eq_nil_of_not_mem
          intro q hq hq1
          exact hp (hq1 ▸ List.mem_map_of_mem Prod.fst hq)
        rw [hrest0]
        by_cases hv : p.2.isEmpty
        · have hv2 : p.2 = [] := by simpa [List.isEmpty_iff] using hv
          simp [hv, hv2]
        · have hv2 : p.2 ≠ [] := by simpa [List.isEmpty_iff] using hv
          simp [hv, hv2, alGet_alSet_self]
      · have hne : (p.1 == db) = false := by simpa using hdb
        rw [hne]
        simp only [Bool.false_eq_true, if_false]
        by_cases hv : p.2.isEmpty
        · simp [hv]
        · simp [hv, alGet_alSet_ne _ _ _ _ (Ne.symm hdb)]

/-- The connector state used for the failure-path scenario of scope exit:
two submitted futures, the first of which raised. -/
def c4State : ConnectorState :=
  { bookmarks := [("db", ["b0"])],
    parallel_bookmarks := [("db", ["p1", "p2"])],
    parallel_mode := true,
    futures := [some (PyErr.external 7), none] }

/-- The connector state used for the clean-path scenario of scope exit. -/
def c4OkState : ConnectorState :=
  { bookmarks := [("db", ["b0"])],
    parallel_bookmarks := [("db", ["p1", "p2"]), ("other", [])],
    parallel_mode := true,
    futures := [none, none] }

/-- C4 counterexample: exiting a parallelism scope with futures
`[failed, pending]` awaits only the first one — the second is never
awaited — and the exception propagates with the state untouched: the
futures list is not cleared, the mode stays Parallel, and no bookmark
consolidation happens.  This falsifies "every outstanding future is
awaited before any exception propagates" and the claimed afterwards-state. -/
theorem parallelism_exit_drops_unawaited :
    (parallelism_exit c4State none).awaited = 1
    ∧ c4State.futures.length = 2
    ∧ (parallelism_exit c4State none).raised = some (PyErr.external 7)
    ∧ (parallelism_exit c4State none).after = c4State := by
  decide

/-- C4 amended: on scope exit, futures are awaited in submission order.
If all succeed, every future is awaited, the futures list is cleared, the
mode resets to Sequential and every database with a non-empty pending list
gets its bookmark replaced by that list (pending lists cleared); any scope
body exception then propagates.  If some future raised, the first raising
future's exception propagates immediately: the futures after it are never
awaited and the state is left untouched (futures kept, mode still
Parallel, no consolidation). -/
theorem parallelism_exit_spec (s : ConnectorState) (bodyErr : Option PyErr) :
    ((∀ f ∈ s.futures, f = none) →
      parallelism_exit s bodyErr =
        { awaited := s.futures.length,
          after := consolidate_parallel_bookmarks
            { s with futures := [], parallel_mode := false },
          raised := bodyErr })
    ∧ (∀ (pre : List (Option PyErr)) (e : PyErr) (post : List (Option PyErr)),
        s.futures = pre ++ some e :: post → (∀ f ∈ pre, f = none) →
        parallelism_exit s bodyErr =
          { awaited := pre.length + 1, after := s, raised := some e })
    ∧ ((s.parallel_bookmarks.map Prod.fst).Nodup →
        ∀ db, alGet (consolidate_parallel_bookmarks s).bookmarks db =
          if alGet s.parallel_bookmarks db = [] then alGet s.bookmarks db
          else alGet s.parallel_bookmarks db) := by
  refine ⟨fun h => ?_, fun pre e post hf hpre => ?_, fun hnd db => ?_⟩
  · simp [parallelism_exit, await_futures_trace_all_ok s.futures h]
  · simp [parallelism_exit, hf,
      await_futures_trace_first_error pre e post hpre]
  · simp only [consolidate_parallel_bookmarks]
    exact alGet_consolidate_foldl _ _ _ hnd

theorem parallelism_exit_spec_witness :
    parallelism_exit c4OkState none =
      { awaited := c4OkState.futures.length,
        after := consolidate_parallel_bookmarks
          { c4OkState with futures := [], parallel_mode := false },
        raised := none }
    ∧ parallelism_exit c4State none =
        { awaited := 1, after := c4State, raised := some (PyErr.external 7) }
    ∧ alGet (consolidate_parallel_bookmarks c4OkState).bookmarks "db" =
        (if alGet c4OkState.parallel_bookmarks "db" = [] then
          alGet c4OkState.bookmarks "db"
         else alGet c4OkState.parallel_bookmarks "db") :=
  ⟨(parallelism_exit_spec c4OkState none).1 (by simp [c4OkState]),
   (parallelism_exit_spec c4State none).2.1 [] (PyErr.external 7) [none]
     rfl (by simp),
   (parallelism_exit_spec c4OkState none).2.2 (by decide) "db"⟩

theorem pyRangeFrom_eq_nil (start stop step : Nat) (h : stop ≤ start) :
    pyRangeFrom start stop step = [] := by
  unfold pyRangeFrom
  rw [dif_neg (by omega)]

theorem batch_slices_flatten {α : Type} (df : List α) (b : Nat)
    (hb : 0 < b) :
    ∀ start,
      ((pyRangeFrom start df.length b).map
        (fun o => (df.drop o).take b)).flatten = df.drop start := by
  have H : ∀ (k start : Nat), df.length - start ≤ k →
      ((pyRangeFrom start df.length b).map
        (fun o => (df.drop o).take b)).flatten = df.drop start := by
    intro k
    induction k with
    | zero =>
        intro start hk
        have hle : df.length ≤ start := by omega
        rw [pyRangeFrom_eq_nil _ _ _ hle]
        simp [List.drop_eq_nil_of_le hle]
    | succ k ih =>
        intro start hk
        by_cases hlt : start < df.length
        · unfold pyRangeFrom
          rw [dif_pos ⟨hb, hlt⟩]
          simp only [List.map_cons, List.flatten_cons]
          rw [ih (start + b) (by omega)]
          rw [(List.drop_drop b start df).symm, List.take_append_drop]
        · have hle : df.length ≤ start := by omega
          rw [pyRangeFrom_eq_nil _ _ _ hle]
          simp [List.drop_eq_nil_of_le hle]
  intro start
  exact H (df.length - start) start le_rfl

theorem batch_slices_length (n b : Nat) (hb : 0 < b) :
    ∀ start, (pyRangeFrom start n b).length = (n - start + b - 1) / b := by
  have H : ∀ (k start : Nat), n - start ≤ k →
      (pyRangeFrom start n b).length = (n - start + b - 1) / b := by
    intro k
    induction k with
    | zero =>
        intro start hk
        rw [pyRangeFrom_eq_nil _ _ _ (by omega)]
        have h0 : n - start = 0 := by omega
        rw [h0]
        simp only [List.length_nil]
        rw [Nat.div_eq_of_lt (by omega)]
    | succ k ih =>
        intro start hk
        by_cases hlt : start < n
        · unfold pyRangeFrom
          rw [dif_pos ⟨hb, hlt⟩]
          simp only [List.length_cons]
          rw [ih (start + b) (by omega)]
          have hm1 : 1 ≤ n - start := by omega
          by_cases hmb : b ≤ n - start
          · have e1 : n - (start + b) + b - 1 = n - start - 1 := by omega
            have e2 : n - start + b - 1 = (n - start - 1) + b := by omega
            rw [e1, e2, Nat.add_div_right _ hb]
          · have e1 : n - (start + b) + b - 1 = b - 1 := by omega
            have e2 : n - start + b - 1 = (n - start - 1) + b := by omega
            rw [e1, e2, Nat.add_div_right _ hb,
              Nat.div_eq_of_lt (by omega), Nat.div_eq_of_lt (by omega)]
        · rw [pyRangeFrom_eq_nil _ _ _ (by omega)]
          have h0 : n - start = 0 := by omega
          rw [h0]
          simp only [List.length_nil]
          rw [Nat.div_eq_of_lt (by omega)]
  intro start
  exact H (n - start) start le_rfl

/-- C7: for every row list and positive batch size, the sequential branch
of `_batch_query_df` issues exactly ceil(n/b) batch writes, in source
order, whose concatenation is the original row sequence — every row appears
exactly once, in original order.  (Each batch's write returns before the
next loop iteration issues the next one; the issue order is the list
order.) -/
theorem batch_query_df_partition {α : Type} (df : List α) (b : Nat)
    (hb : 0 < b) :
    (batch_query_df_batches df b).length = (df.length + b - 1) / b
    ∧ (batch_query_df_batches df b).flatten = df := by
  constructor
  · simp only [batch_query_df_batches, List.length_map]
    simpa using batch_slices_length df.length b hb 0
  · simpa [batch_query_df_batches] using batch_slices_flatten df b hb 0

theorem batch_query_df_partition_witness :
    (batch_query_df_batches [10, 20, 30, 40, 50] 2).length =
      (([10, 20, 30, 40, 50] : List Nat).length + 2 - 1) / 2
    ∧ (batch_query_df_batches [10, 20, 30, 40, 50] 2).flatten =
        [10, 20, 30, 40, 50] :=
  batch_query_df_partition [10, 20, 30, 40, 50] 2 (by decide)

/-- Recover a name from its backquote-escaped body: collapse every doubled
backquote. -/
def undoubleBq : List Char → List Char
  | [] => []
  | [c] => [c]
  | c :: c2 :: cs =>
      if c = backquoteChar ∧ c2 = backquoteChar then c :: undoubleBq cs
      else c :: undoubleBq (c2 :: cs)

/-- Invert `escape`: strip the enclosing backquotes, then collapse every
doubled backquote. -/
def unescapeBq (l : List Char) : List Char :=
  undoubleBq (l.drop 1).dropLast

/-- Scanning left to right, every backquote is immediately followed by its
pairing backquote: no unescaped embedded backquote. -/
def bqDoubledB : List Char → Bool
  | [] => true
  | [c] => decide (c ≠ backquoteChar)
  | c :: c2 :: cs =>
      if c = backquoteChar then decide (c2 = backquoteChar) && bqDoubledB cs
      else bqDoubledB (c2 :: cs)

theorem doubleBq_eq_nil_iff (s : List Char) : doubleBq s = [] ↔ s = [] := by
  cases s with
  | nil => simp [doubleBq]
  | cons c cs =>
      simp only [doubleBq]
      split <;> simp

theorem undoubleBq_doubleBq (s : List Char) : undoubleBq (doubleBq s) = s := by
  induction s with
  | nil => rfl
  | cons c cs ih =>
      by_cases hc : c = backquoteChar
      · subst hc
        have h1 : doubleBq (backquoteChar :: cs) =
            backquoteChar :: backquoteChar :: doubleBq cs := by
          simp [doubleBq]
        rw [h1]
        have h2 : undoubleBq (backquoteChar :: backquoteChar :: doubleBq cs) =
            backquoteChar :: undoubleBq (doubleBq cs) := by
          show (if backquoteChar = backquoteChar ∧
                backquoteChar = backquoteChar then
              backquoteChar :: undoubleBq (doubleBq cs)
            else backquoteChar :: undoubleBq (backquoteChar :: doubleBq cs)) =
            backquoteChar :: undoubleBq (doubleBq cs)
          rw [if_pos ⟨rfl, rfl⟩]
        rw [h2, ih]
      · have h1 : doubleBq (c :: cs) = c :: doubleBq cs := by
          simp [doubleBq, hc]
        rw [h1]
        cases hd : doubleBq cs with
        | nil =>
            have hcs : cs = [] := (doubleBq_eq_nil_iff cs).mp hd
            subst hcs
            rfl
        | cons d ds =>
            have h2 : undoubleBq (c :: d :: ds) = c :: undoubleBq (d :: ds) := by
              show (if c = backquoteChar ∧ d = backquoteChar then
                  c :: undoubleBq ds
                else c :: undoubleBq (d :: ds)) = c :: undoubleBq (d :: ds)
              rw [if_neg (show ¬(c = backquoteChar ∧ d = backquoteChar) from
                fun hand => hc hand.1)]
            rw [h2, ← hd, ih]

theorem bqDoubledB_doubleBq (s : List Char) :
    bqDoubledB (doubleBq s) = true := by
  induction s with
  | nil => rfl
  | cons c cs ih =>
      by_cases hc : c = backquoteChar
      · subst hc
        have h1 : doubleBq (backquoteChar :: cs) =
            backquoteChar :: backquoteChar :: doubleBq cs := by
          simp [doubleBq]
        rw [h1]
        have h2 : bqDoubledB (backquoteChar :: backquoteChar :: doubleBq cs) =
            (decide (backquoteChar = backquoteChar) && bqDoubledB (doubleBq cs)) := by
          show (if backquoteChar = backquoteChar then
              decide (backquoteChar = backquoteChar) && bqDoubledB (doubleBq cs)
            else bqDoubledB (backquoteChar :: doubleBq cs)) =
            (decide (backquoteChar = backquoteChar) && bqDoubledB (doubleBq cs))
          rw [if_pos rfl]
        rw [h2, ih]
        simp
      · have h1 : doubleBq (c :: cs) = c :: doubleBq cs := by
          simp [doubleBq, hc]
        rw [h1]
        cases hd : doubleBq cs with
        | nil =>
            show decide (c ≠ backquoteChar) = true
            simpa using hc
        | cons d ds =>
            have h2 : bqDoubledB (c :: d :: ds) = bqDoubledB (d :: ds) := by
              show (if c = backquoteChar then
                  decide (d = backquoteChar) && bqDoubledB ds
                else bqDoubledB (d :: ds)) = bqDoubledB (d :: ds)
              rw [if_neg hc]
            rw [h2, ← hd, ih]

theorem unescape_escape (s : List Char) : unescapeBq (escape s) = s := by
  simp only [unescapeBq, escape, List.drop_one, List.tail_cons,
    List.dropLast_concat]
  exact undoubleBq_doubleBq s

/-- C8: for every input string, the escaped identifier has every interior
backquote doubled (no unescaped embedded backquote), stripping the
enclosing backquotes and collapsing doubled backquotes recovers the input
exactly, and hence `escape` is injective. -/
theorem escape_props (s : String) :
    bqDoubledB (doubleBq s.data) = true
    ∧ unescapeBq (escapeS s).data = s.data
    ∧ ∀ t : String, escapeS s = escapeS t → s = t := by
  refine ⟨bqDoubledB_doubleBq s.data, unescape_escape s.data, ?_⟩
  intro t h
  have h2 : escape s.data = escape t.data := congrArg String.data h
  have hdata : s.data = t.data := by
    calc s.data = unescapeBq (escape s.data) := (unescape_escape s.data).symm
      _ = unescapeBq (escape t.data) := by rw [h2]
      _ = t.data := unescape_escape t.data
  cases s
  cases t
  exact congrArg String.mk hdata

theorem escape_props_witness :
    bqDoubledB (doubleBq ("a`b" : String).data) = true
    ∧ ("a`b" : String) = "a`b" :=
  ⟨(escape_props "a`b").1, (escape_props "a`b").2.2 "a`b" rfl⟩

/-- C2 counterexample: the claim's concrete rendering for attributes
["x","y"], label "P", mode Create lacks the backquote quoting that
`row_as_dict` applies to every attribute key and to the row variable, so
the statement the code renders is not the claimed string. -/
theorem nodes_from_rows_concrete_counterexample :
    nodes_from_rows ["x", "y"] none ["P"] NodeCreationMode.CREATE [] ≠
      some "UNWIND $rows AS row\nWITH \x7bx: row[0], y: row[1]\x7d AS row\nCREATE (n:`P`)\nSET n = row" := by
  decide

/-- C2 amended: for every attribute list, primary key, label list and
rename map, the rendered node-creation statement follows the spec's
branching table exactly (verb, match clause and SET clause per mode, with
all identifiers backquote-escaped), and the concrete Create example for
attributes ["x","y"] and label "P" renders with escaped identifiers in the
WITH clause. -/
theorem nodes_from_rows_spec_table :
    ∀ (attrs : List String) (pk : String) (labels : List String)
      (m : List (String × String)) (mode : NodeCreationMode),
      nodes_from_rows attrs (some pk) labels mode m =
        some (spec_node_statement attrs pk labels m mode)
      ∧ nodes_from_rows ["x", "y"] none ["P"] NodeCreationMode.CREATE [] =
          some "UNWIND $rows AS row\nWITH \x7b`x`: `row`[0], `y`: `row`[1]\x7d AS `row`\nCREATE (n:`P`)\nSET n = row" := by
  intro attrs pk labels m mode
  refine ⟨?_, by decide⟩
  cases mode <;> rfl
